import Mathlib

/-!
Verification of the pre-build orchestration layer of ZYZVerilog.

The repository has two Cargo build scripts:
 * `src/lib/lexer/build.rs` — writes a metadata fragment (`lexer_info.rs`),
   emits rerun-trigger and cfg directives, and if `CMakeLists.txt` exists
   runs `cmake -G Ninja -DCMAKE_BUILD_TYPE=Release ..` then `ninja` in the
   `build` workspace directory, emitting link directives on success.
 * `src/lib/analysis/build.rs` — writes a metadata fragment
   (`analysis_info.rs`) and emits rerun-trigger and cfg directives only.

We embed each script as a function from a `World` (the environment inputs
and the outcomes of the external interactions: file-existence tests,
directory creation, subprocess launches and exit statuses) to the ordered
trace of observable effects it performs together with the abort message of
the first `panic!`/`expect`/`unwrap` failure, if any.
-/

/-- One line-oriented declaration printed to the outer build tool
(`println!("cargo:...")` in the source), in structured form:
`rerunIfChanged p` is the line `cargo:rerun-if-changed=p`,
`rustcCfg f` is `cargo:rustc-cfg=f`,
`linkSearchNative p` is `cargo:rustc-link-search=native=p`,
`linkLibStatic l` is `cargo:rustc-link-lib=static=l`. -/
inductive Directive where
  | rerunIfChanged (path : String)
  | rustcCfg (flag : String)
  | linkSearchNative (path : String)
  | linkLibStatic (libname : String)
deriving DecidableEq, Repr

/-- An observable effect of one build-script run, in the order performed.
`writeFile` is `fs::write` (whole-file write; content as a character list),
`emit` is a `println!("cargo:...")` directive, `createDirAll` is a
successful `fs::create_dir_all`, `checkManifest` is the
`cmake_file.exists()` filesystem test, and `spawn prog args cwd` is a
`Command::new(prog)` invocation with the given arguments and working
directory. -/
inductive Event where
  | writeFile (path : String) (content : List Char)
  | emit (d : Directive)
  | createDirAll (path : String)
  | checkManifest (path : String)
  | spawn (prog : String) (args : List String) (cwd : String)
deriving DecidableEq, Repr

/-- The environment a build-script run observes: the environment variables
it reads, and the outcome of every external interaction it can perform.
`writeOk` — the `fs::write` of the metadata fragment succeeds;
`manifestExists` — `CMakeLists.txt` exists at the project root;
`buildDirExists` — the `build` workspace directory already exists;
`mkdirOk` — actually creating a missing workspace directory succeeds;
`cmakeLaunches` / `ninjaLaunches` — the executable can be spawned at all;
`cmakeSuccess` / `ninjaSuccess` — the spawned subprocess exits with
status zero. -/
structure World where
  outDir : String
  manifestDir : String
  timestamp : String
  pkgVersion : String
  pkgName : String
  writeOk : Bool
  manifestExists : Bool
  buildDirExists : Bool
  mkdirOk : Bool
  cmakeLaunches : Bool
  cmakeSuccess : Bool
  ninjaLaunches : Bool
  ninjaSuccess : Bool
deriving DecidableEq, Repr

/-- One constant declaration of the metadata fragment: the line
`pub const <field>: &str = "<value>";` (without the trailing newline),
exactly as produced by the `format!` literal in both build scripts. -/
def constDecl (field : String) (value : List Char) : List Char :=
  ("pub const " ++ field ++ ": &str = \"").data ++ value ++ "\";".data

/-- The metadata fragment `build_info`: the three newline-terminated
constant declarations of the `format!` literal shared by both build
scripts. -/
def buildInfoChars (ts ver name : List Char) : List Char :=
  constDecl "BUILD_TIME" ts ++ '\n' ::
    (constDecl "PKG_VERSION" ver ++ '\n' ::
      (constDecl "PKG_NAME" name ++ ['\n']))

/-- The workspace directory `c_build_dir = project_root.join("build")` of
`src/lib/lexer/build.rs`. -/
def cBuildDir (w : World) : String := w.manifestDir ++ "/build"

/-- The five `cargo:rerun-if-changed` paths printed by
`src/lib/lexer/build.rs`, in print order. -/
def lexerRerunPaths : List String :=
  ["CMakeLists.txt", "src/*.c", "inc/*.h", "Cargo.toml", "src/"]

/-- The fixed argument list of the cmake invocation in
`src/lib/lexer/build.rs`: `-G Ninja -DCMAKE_BUILD_TYPE=Release ..`. -/
def cmakeArgs : List String := ["-G", "Ninja", "-DCMAKE_BUILD_TYPE=Release", ".."]

/-- Shallow embedding of `main` of `src/lib/lexer/build.rs`: the trace of
effects performed (in order) and the abort message, if the run aborted.
The trace records effects that happened; an aborting step contributes its
message and nothing after it runs. -/
def lexerMain (w : World) : List Event × Option String :=
  let destPath := w.outDir ++ "/lexer_info.rs"
  let info := buildInfoChars w.timestamp.data w.pkgVersion.data w.pkgName.data
  if w.writeOk = false then
    ([], some "failed to write lexer_info.rs")
  else
    let pre : List Event :=
      Event.writeFile destPath info ::
        (lexerRerunPaths.map (fun p => Event.emit (Directive.rerunIfChanged p)) ++
          [Event.emit (Directive.rustcCfg "lexer_crate"),
           Event.checkManifest (w.manifestDir ++ "/CMakeLists.txt")])
    if w.manifestExists = false then
      (pre, none)
    else if w.buildDirExists = false ∧ w.mkdirOk = false then
      (pre, some "Failed to create build directory")
    else
      let pre2 := pre ++
        [Event.createDirAll (cBuildDir w),
         Event.spawn "cmake" cmakeArgs (cBuildDir w)]
      if w.cmakeLaunches = false then
        (pre2, some "Failed to execute cmake. Make sure CMake is installed.")
      else if w.cmakeSuccess = false then
        (pre2, some "CMake configuration failed")
      else
        let pre3 := pre2 ++ [Event.spawn "ninja" [] (cBuildDir w)]
        if w.ninjaLaunches = false then
          (pre3, some "Failed to execute ninja. Make sure Ninja is installed.")
        else if w.ninjaSuccess = false then
          (pre3, some "Ninja build failed")
        else
          (pre3 ++
            [Event.emit (Directive.linkSearchNative (cBuildDir w)),
             Event.emit (Directive.linkLibStatic "native")], none)

/-- Shallow embedding of `main` of `src/lib/analysis/build.rs`: writes the
metadata fragment and emits two rerun triggers and one cfg flag; no
subprocess interaction at all. -/
def analysisMain (w : World) : List Event × Option String :=
  let destPath := w.outDir ++ "/analysis_info.rs"
  let info := buildInfoChars w.timestamp.data w.pkgVersion.data w.pkgName.data
  if w.writeOk = false then
    ([], some "failed to write analysis_info.rs")
  else
    ([Event.writeFile destPath info,
      Event.emit (Directive.rerunIfChanged "Cargo.toml"),
      Event.emit (Directive.rerunIfChanged "src/"),
      Event.emit (Directive.rustcCfg "analysis_crate")], none)

/-- The directives a trace emits, in order. -/
def emittedDirectives (t : List Event) : List Directive :=
  t.filterMap fun e =>
    match e with
    | Event.emit d => some d
    | _ => none

/-- Whether a directive is a link directive (search path or link library). -/
def isLinkDirective (d : Directive) : Bool :=
  match d with
  | Directive.linkSearchNative _ => true
  | Directive.linkLibStatic _ => true
  | _ => false

/-- Whether a directive is a rebuild trigger (`cargo:rerun-if-changed`). -/
def isRerunTrigger (d : Directive) : Bool :=
  match d with
  | Directive.rerunIfChanged _ => true
  | _ => false

/-- The subprocess invocations of a trace, in order. -/
def spawnEvents (t : List Event) : List Event :=
  t.filter fun e =>
    match e with
    | Event.spawn _ _ _ => true
    | _ => false

/-- Apply a trace of events to a filesystem (a map from path to file
content); `writeFile` replaces the whole content at its path. -/
def runFs (fs : String → Option (List Char)) (t : List Event) :
    String → Option (List Char) :=
  t.foldl
    (fun acc e =>
      match e with
      | Event.writeFile p c => fun q => if q = p then some c else acc q
      | _ => acc) fs

/-- Split a character list into its newline-terminated lines. -/
def splitLines : List Char → List (List Char)
  | [] => []
  | c :: cs =>
    if c = '\n' then [] :: splitLines cs
    else
      match splitLines cs with
      | [] => [[c]]
      | l :: ls => (c :: l) :: ls

/-- The number of lines that are a constant declaration for the given
field, i.e. start with `pub const <field>:`. -/
def countDecl (field : String) (lines : List (List Char)) : Nat :=
  lines.countP fun l => ("pub const " ++ field ++ ":").data.isPrefixOf l

/-- The events of a lexer run that follow the manifest-existence check,
as a function of the outcomes of the external interactions. -/
def tailEvents (w : World) : List Event :=
  if w.manifestExists = false then []
  else if w.buildDirExists = false ∧ w.mkdirOk = false then []
  else
    Event.createDirAll (cBuildDir w) ::
      Event.spawn "cmake" cmakeArgs (cBuildDir w) ::
        (if w.cmakeLaunches = false then []
         else if w.cmakeSuccess = false then []
         else
           Event.spawn "ninja" [] (cBuildDir w) ::
             (if w.ninjaLaunches = false then []
              else if w.ninjaSuccess = false then []
              else
                [Event.emit (Directive.linkSearchNative (cBuildDir w)),
                 Event.emit (Directive.linkLibStatic "native")]))

/-- The fixed prefix of every lexer run that gets past the metadata write:
the fragment write, the five rebuild triggers, the cfg flag, and the
manifest-existence check, in that order. -/
def lexerPrefixEvents (w : World) : List Event :=
  Event.writeFile (w.outDir ++ "/lexer_info.rs")
      (buildInfoChars w.timestamp.data w.pkgVersion.data w.pkgName.data) ::
    (lexerRerunPaths.map (fun p => Event.emit (Directive.rerunIfChanged p)) ++
      Event.emit (Directive.rustcCfg "lexer_crate") ::
        [Event.checkManifest (w.manifestDir ++ "/CMakeLists.txt")])

theorem lexerMain_trace (w : World) (h : w.writeOk = true) :
    (lexerMain w).1 = lexerPrefixEvents w ++ tailEvents w := by
  unfold lexerMain lexerPrefixEvents tailEvents
  simp only [h]
  split_ifs <;> simp_all

theorem emittedDirectives_lexerPrefixEvents (w : World) :
    emittedDirectives (lexerPrefixEvents w) =
      lexerRerunPaths.map Directive.rerunIfChanged ++ [Directive.rustcCfg "lexer_crate"] := by
  simp [lexerPrefixEvents, emittedDirectives, lexerRerunPaths]

theorem emittedDirectives_tailEvents (w : World) :
    emittedDirectives (tailEvents w) =
      if w.manifestExists = true ∧ (w.buildDirExists = true ∨ w.mkdirOk = true) ∧
          w.cmakeLaunches = true ∧ w.cmakeSuccess = true ∧
          w.ninjaLaunches = true ∧ w.ninjaSuccess = true then
        [Directive.linkSearchNative (cBuildDir w), Directive.linkLibStatic "native"]
      else [] := by
  unfold tailEvents
  split_ifs <;> simp_all [emittedDirectives]

theorem spawnEvents_lexerPrefixEvents (w : World) :
    spawnEvents (lexerPrefixEvents w) = [] := by
  simp [lexerPrefixEvents, spawnEvents, lexerRerunPaths]

theorem splitLines_append (pre rest : List Char) (h : '\n' ∉ pre) :
    splitLines (pre ++ '\n' :: rest) = pre :: splitLines rest := by
  induction pre with
  | nil => simp [splitLines]
  | cons c cs ih =>
    have hc : c ≠ '\n' := fun e => h (by simp [e])
    have h' : '\n' ∉ cs := fun m => h (by simp [m])
    simp only [List.cons_append, splitLines, if_neg hc, List.append_eq, ih h']

theorem isPrefixOf_append_of_le :
    ∀ (p a x : List Char), p.length ≤ a.length →
      p.isPrefixOf (a ++ x) = p.isPrefixOf a
  | [], _, _, _ => by simp [List.isPrefixOf]
  | c :: cs, [], _, h => by simp at h
  | c :: cs, d :: ds, x, h => by
    have := isPrefixOf_append_of_le cs ds x (by simpa using h)
    simp [List.isPrefixOf, this]

theorem newline_not_mem_constDecl (field : String) (v : List Char)
    (hf : '\n' ∉ field.data) (hv : '\n' ∉ v) : '\n' ∉ constDecl field v := by
  simp only [constDecl, List.mem_append, String.data_append]
  intro hmem
  rcases hmem with (((h1 | h2) | h3) | h4) | h5
  · exact absurd h1 (by decide)
  · exact hf h2
  · exact absurd h3 (by decide)
  · exact hv h4
  · exact absurd h5 (by decide)

theorem splitLines_buildInfo (ts ver name : List Char)
    (hts : '\n' ∉ ts) (hver : '\n' ∉ ver) (hname : '\n' ∉ name) :
    splitLines (buildInfoChars ts ver name) =
      [constDecl "BUILD_TIME" ts, constDecl "PKG_VERSION" ver,
       constDecl "PKG_NAME" name] := by
  unfold buildInfoChars
  rw [splitLines_append _ _ (newline_not_mem_constDecl _ _ (by decide) hts),
    splitLines_append _ _ (newline_not_mem_constDecl _ _ (by decide) hver)]
  have : constDecl "PKG_NAME" name ++ ['\n'] = constDecl "PKG_NAME" name ++ '\n' :: [] := rfl
  rw [this, splitLines_append _ _ (newline_not_mem_constDecl _ _ (by decide) hname)]
  rfl

theorem isPrefixOf_constDecl (p : List Char) (field : String) (v : List Char)
    (h : p.length ≤ ("pub const " ++ field ++ ": &str = \"").data.length) :
    p.isPrefixOf (constDecl field v) =
      p.isPrefixOf ("pub const " ++ field ++ ": &str = \"").data := by
  unfold constDecl
  rw [List.append_assoc]
  exact isPrefixOf_append_of_le _ _ _ h

theorem emittedDirectives_append (a b : List Event) :
    emittedDirectives (a ++ b) = emittedDirectives a ++ emittedDirectives b := by
  simp [emittedDirectives, List.filterMap_append]

theorem spawnEvents_append (a b : List Event) :
    spawnEvents (a ++ b) = spawnEvents a ++ spawnEvents b := by
  simp [spawnEvents, List.filter_append]

theorem runFs_analysis (w : World) (fs : String → Option (List Char))
    (h : w.writeOk = true) (q : String) :
    runFs fs (analysisMain w).1 q =
      if q = w.outDir ++ "/analysis_info.rs" then
        some (buildInfoChars w.timestamp.data w.pkgVersion.data w.pkgName.data)
      else fs q := by
  simp [analysisMain, h, runFs]

theorem countDecl_buildInfo (ts ver name : List Char)
    (hts : '\n' ∉ ts) (hver : '\n' ∉ ver) (hname : '\n' ∉ name) :
    countDecl "BUILD_TIME" (splitLines (buildInfoChars ts ver name)) = 1 ∧
    countDecl "PKG_VERSION" (splitLines (buildInfoChars ts ver name)) = 1 ∧
    countDecl "PKG_NAME" (splitLines (buildInfoChars ts ver name)) = 1 := by
  rw [splitLines_buildInfo ts ver name hts hver hname]
  simp only [countDecl, List.countP_cons, List.countP_nil]
  rw [isPrefixOf_constDecl _ "BUILD_TIME" ts (by decide),
    isPrefixOf_constDecl _ "PKG_VERSION" ver (by decide),
    isPrefixOf_constDecl _ "PKG_NAME" name (by decide),
    isPrefixOf_constDecl _ "BUILD_TIME" ts (by decide),
    isPrefixOf_constDecl _ "PKG_VERSION" ver (by decide),
    isPrefixOf_constDecl _ "PKG_NAME" name (by decide),
    isPrefixOf_constDecl _ "BUILD_TIME" ts (by decide),
    isPrefixOf_constDecl _ "PKG_VERSION" ver (by decide),
    isPrefixOf_constDecl _ "PKG_NAME" name (by decide)]
  decide

theorem runFs_no_writeFile (t : List Event) :
    ∀ fs : String → Option (List Char),
      (∀ p c, Event.writeFile p c ∉ t) → runFs fs t = fs := by
  induction t with
  | nil => intro fs _; rfl
  | cons e t ih =>
    intro fs h
    have ht : ∀ p c, Event.writeFile p c ∉ t :=
      fun p c m => h p c (List.mem_cons_of_mem _ m)
    cases e with
    | writeFile p c => exact absurd (List.mem_cons_self _ _) (h p c)
    | emit d => simpa [runFs] using ih fs ht
    | createDirAll p => simpa [runFs] using ih fs ht
    | checkManifest p => simpa [runFs] using ih fs ht
    | spawn pr ar cw => simpa [runFs] using ih fs ht

theorem writeFile_not_mem_tailEvents (w : World) (p : String) (c : List Char) :
    Event.writeFile p c ∉ tailEvents w := by
  unfold tailEvents
  split_ifs <;> simp

theorem runFs_lexer (w : World) (fs : String → Option (List Char))
    (h : w.writeOk = true) (q : String) :
    runFs fs (lexerMain w).1 q =
      if q = w.outDir ++ "/lexer_info.rs" then
        some (buildInfoChars w.timestamp.data w.pkgVersion.data w.pkgName.data)
      else fs q := by
  rw [lexerMain_trace w h]
  unfold lexerPrefixEvents
  rw [List.cons_append]
  show runFs (fun r => if r = w.outDir ++ "/lexer_info.rs" then _ else fs r) _ q = _
  rw [runFs_no_writeFile _ _ ?_]
  intro p c hm
  simp only [List.mem_append, List.mem_map, List.mem_cons] at hm
  rcases hm with (⟨_, _, hx⟩ | hx | hx) | hx
  · exact Event.noConfusion hx
  · exact Event.noConfusion hx
  · simp at hx
  · exact writeFile_not_mem_tailEvents w p c hx

theorem spawnEvents_tailEvents (w : World) :
    spawnEvents (tailEvents w) =
      if w.manifestExists = true ∧ (w.buildDirExists = true ∨ w.mkdirOk = true) then
        Event.spawn "cmake" cmakeArgs (cBuildDir w) ::
          (if w.cmakeLaunches = true ∧ w.cmakeSuccess = true then
            [Event.spawn "ninja" [] (cBuildDir w)]
          else [])
      else [] := by
  unfold tailEvents
  split_ifs <;> simp_all [spawnEvents]


/-- The pipeline-success condition: the manifest is present, the workspace
directory could be established, and both external tools launched and
exited with status zero. -/
def fullSuccess (w : World) : Prop :=
  w.manifestExists = true ∧ (w.buildDirExists = true ∨ w.mkdirOk = true) ∧
    w.cmakeLaunches = true ∧ w.cmakeSuccess = true ∧
    w.ninjaLaunches = true ∧ w.ninjaSuccess = true

instance (w : World) : Decidable (fullSuccess w) := by
  unfold fullSuccess; infer_instance

theorem emittedDirectives_lexer (w : World) (hw : w.writeOk = true) :
    emittedDirectives (lexerMain w).1 =
      lexerRerunPaths.map Directive.rerunIfChanged ++
        [Directive.rustcCfg "lexer_crate"] ++
        (if fullSuccess w then
          [Directive.linkSearchNative (cBuildDir w), Directive.linkLibStatic "native"]
        else []) := by
  rw [lexerMain_trace w hw, emittedDirectives_append,
    emittedDirectives_lexerPrefixEvents, emittedDirectives_tailEvents]
  unfold fullSuccess
  rfl

/-- C1: For every orchestration run, a link directive is emitted to the
outer build only if both external process invocations (configure and
build) reported success, and the two directives are all-or-nothing: the
search-path directive is emitted exactly when the static-link directive
is. We prove the full characterization: each link directive is visible
iff the whole pipeline (metadata write, manifest present, workspace
creation, configure launch and success, build launch and success)
completed. -/
theorem c1_link_directives_all_or_nothing (w : World) :
    (Directive.linkSearchNative (cBuildDir w) ∈ emittedDirectives (lexerMain w).1 ↔
      w.writeOk = true ∧ fullSuccess w) ∧
    (Directive.linkLibStatic "native" ∈ emittedDirectives (lexerMain w).1 ↔
      w.writeOk = true ∧ fullSuccess w) := by
  cases hw : w.writeOk with
  | false =>
    constructor <;> simp [lexerMain, hw, emittedDirectives]
  | true =>
    rw [emittedDirectives_lexer w hw]
    simp only [hw, true_and]
    constructor <;>
    · by_cases hc : fullSuccess w
      · rw [if_pos hc]
        exact iff_of_true (by simp [lexerRerunPaths]) hc
      · rw [if_neg hc]
        exact iff_of_false (by simp [lexerRerunPaths]) hc

/-- C2: If the manifest exists but the configuration subprocess exits
with a nonzero status, the build subprocess is never invoked, no link
directive is emitted, and the run aborts with the message naming the
configure stage. -/
theorem c2_configure_failure_short_circuits (w : World)
    (hw : w.writeOk = true) (hm : w.manifestExists = true)
    (hd : w.buildDirExists = true ∨ w.mkdirOk = true)
    (hl : w.cmakeLaunches = true) (hc : w.cmakeSuccess = false) :
    (∀ args cwd, Event.spawn "ninja" args cwd ∉ (lexerMain w).1) ∧
    (∀ d ∈ emittedDirectives (lexerMain w).1, isLinkDirective d = false) ∧
    (lexerMain w).2 = some "CMake configuration failed" := by
  have hd' : ¬(w.buildDirExists = false ∧ w.mkdirOk = false) := by
    rcases hd with h | h <;> simp [h]
  have hcond : ¬fullSuccess w := by simp [fullSuccess, hc]
  refine ⟨?_, ?_, ?_⟩
  · intro args cwd
    rw [lexerMain_trace w hw]
    simp only [List.mem_append, lexerPrefixEvents, List.mem_cons, List.mem_map]
    rintro ((h | ⟨⟨p, _, h⟩ | h⟩) | h)
    · exact Event.noConfusion h
    · exact Event.noConfusion h
    · simp at h
    · revert h
      unfold tailEvents
      simp [hm, hd', hl, hc]
  · rw [emittedDirectives_lexer w hw, if_neg hcond, List.append_nil]
    intro d hdm
    simp only [List.mem_append, List.mem_map, List.mem_singleton] at hdm
    rcases hdm with ⟨p, _, rfl⟩ | rfl <;> rfl
  · simp [lexerMain, hw, hm, hd', hl, hc]

/-- C3: If the manifest does not exist, the orchestrator performs zero
subprocess invocations, emits zero link directives, and the run completes
without error. -/
theorem c3_no_manifest_is_noop (w : World)
    (hm : w.manifestExists = false) (hw : w.writeOk = true) :
    spawnEvents (lexerMain w).1 = [] ∧
    (∀ d ∈ emittedDirectives (lexerMain w).1, isLinkDirective d = false) ∧
    (lexerMain w).2 = none := by
  have hcond : ¬fullSuccess w := by simp [fullSuccess, hm]
  refine ⟨?_, ?_, ?_⟩
  · rw [lexerMain_trace w hw, spawnEvents_append, spawnEvents_lexerPrefixEvents,
      spawnEvents_tailEvents]
    simp [hm]
  · rw [emittedDirectives_lexer w hw, if_neg hcond, List.append_nil]
    intro d hdm
    simp only [List.mem_append, List.mem_map, List.mem_singleton] at hdm
    rcases hdm with ⟨p, _, rfl⟩ | rfl <;> rfl
  · simp [lexerMain, hw, hm]

/-- C4: If both subprocesses exit with status zero, exactly one library
search-path directive and exactly one static-link directive are emitted;
the search path is the workspace directory `<project_root>/build` and the
library name is the fixed constant `native`. -/
theorem c4_success_emits_one_of_each (w : World)
    (hw : w.writeOk = true) (hm : w.manifestExists = true)
    (hd : w.buildDirExists = true ∨ w.mkdirOk = true)
    (hcl : w.cmakeLaunches = true) (hcs : w.cmakeSuccess = true)
    (hnl : w.ninjaLaunches = true) (hns : w.ninjaSuccess = true) :
    (emittedDirectives (lexerMain w).1).count
        (Directive.linkSearchNative (w.manifestDir ++ "/build")) = 1 ∧
    (emittedDirectives (lexerMain w).1).count (Directive.linkLibStatic "native") = 1 ∧
    (emittedDirectives (lexerMain w).1).filter isLinkDirective =
      [Directive.linkSearchNative (w.manifestDir ++ "/build"),
       Directive.linkLibStatic "native"] := by
  have hcond : fullSuccess w := ⟨hm, hd, hcl, hcs, hnl, hns⟩
  rw [emittedDirectives_lexer w hw, if_pos hcond]
  refine ⟨?_, ?_, ?_⟩
  · simp [lexerRerunPaths, cBuildDir, List.count_append, List.count_cons]
  · simp [lexerRerunPaths, cBuildDir, List.count_append, List.count_cons]
  · simp [lexerRerunPaths, cBuildDir, List.filter_append, isLinkDirective]

/-- C5: The rebuild-trigger declarations are emitted on every run that
completes the metadata write, identically whether or not the manifest
exists, and all of them are emitted before the manifest-existence check;
the emitted set is exactly the manifest file, the native source tree, the
native header tree, the outer dependency manifest, and the crate source
directory. -/
theorem c5_rebuild_triggers_unconditional (w : World) (hw : w.writeOk = true) :
    (emittedDirectives (lexerMain w).1).filter isRerunTrigger =
      lexerRerunPaths.map Directive.rerunIfChanged ∧
    (∃ post, (lexerMain w).1 = lexerPrefixEvents w ++ post ∧
      (emittedDirectives (lexerPrefixEvents w)).filter isRerunTrigger =
        lexerRerunPaths.map Directive.rerunIfChanged ∧
      (lexerPrefixEvents w).getLast? =
        some (Event.checkManifest (w.manifestDir ++ "/CMakeLists.txt"))) ∧
    lexerRerunPaths = ["CMakeLists.txt", "src/*.c", "inc/*.h", "Cargo.toml", "src/"] := by
  refine ⟨?_, ⟨tailEvents w, lexerMain_trace w hw, ?_, ?_⟩, rfl⟩
  · rw [emittedDirectives_lexer w hw]
    by_cases hc : fullSuccess w
    · rw [if_pos hc]
      simp [lexerRerunPaths, List.filter_append, isRerunTrigger]
    · rw [if_neg hc]
      simp [lexerRerunPaths, List.filter_append, isRerunTrigger]
  · rw [emittedDirectives_lexerPrefixEvents]
    simp [lexerRerunPaths, List.filter_append, isRerunTrigger]
  · rfl

/-- C6: Within one invocation the stages run strictly sequentially:
on a fully successful run the trace is exactly the metadata write, the
directive emissions, the manifest check, the workspace creation, the
configure invocation, the build invocation, and the link emissions, in
that order; and on any run whatsoever, if some subprocess was launched
then the very first event was the metadata fragment write. -/
theorem c6_stages_strictly_sequential (w : World)
    (hw : w.writeOk = true) (hm : w.manifestExists = true)
    (hd : w.buildDirExists = true ∨ w.mkdirOk = true)
    (hcl : w.cmakeLaunches = true) (hcs : w.cmakeSuccess = true)
    (hnl : w.ninjaLaunches = true) (hns : w.ninjaSuccess = true) :
    (lexerMain w).1 =
      [Event.writeFile (w.outDir ++ "/lexer_info.rs")
          (buildInfoChars w.timestamp.data w.pkgVersion.data w.pkgName.data),
       Event.emit (Directive.rerunIfChanged "CMakeLists.txt"),
       Event.emit (Directive.rerunIfChanged "src/*.c"),
       Event.emit (Directive.rerunIfChanged "inc/*.h"),
       Event.emit (Directive.rerunIfChanged "Cargo.toml"),
       Event.emit (Directive.rerunIfChanged "src/"),
       Event.emit (Directive.rustcCfg "lexer_crate"),
       Event.checkManifest (w.manifestDir ++ "/CMakeLists.txt"),
       Event.createDirAll (cBuildDir w),
       Event.spawn "cmake" cmakeArgs (cBuildDir w),
       Event.spawn "ninja" [] (cBuildDir w),
       Event.emit (Directive.linkSearchNative (cBuildDir w)),
       Event.emit (Directive.linkLibStatic "native")] ∧
    (∀ v : World, ∀ pr ar cw, Event.spawn pr ar cw ∈ (lexerMain v).1 →
      ∃ rest, (lexerMain v).1 =
        Event.writeFile (v.outDir ++ "/lexer_info.rs")
          (buildInfoChars v.timestamp.data v.pkgVersion.data v.pkgName.data) :: rest) := by
  have hd' : ¬(w.buildDirExists = false ∧ w.mkdirOk = false) := by
    rcases hd with h | h <;> simp [h]
  constructor
  · rw [lexerMain_trace w hw]
    unfold lexerPrefixEvents tailEvents
    rw [if_neg (by simp [hm]), if_neg hd', if_neg (by simp [hcl]),
      if_neg (by simp [hcs]), if_neg (by simp [hnl]), if_neg (by simp [hns])]
    simp [lexerRerunPaths]
  · intro v pr ar cw hmem
    cases hv : v.writeOk with
    | false =>
      rw [lexerMain] at hmem
      simp [hv] at hmem
    | true =>
      rw [lexerMain_trace v hv]
      exact ⟨_, rfl⟩

/-- C7: When the workspace directory already exists, the
workspace-creation step succeeds regardless of whether a fresh creation
would have succeeded: the run never aborts with the directory-creation
error, and the (successful) recursive-creation call appears in the
trace. -/
theorem c7_existing_workspace_tolerated (w : World)
    (hw : w.writeOk = true) (hm : w.manifestExists = true)
    (hb : w.buildDirExists = true) :
    (lexerMain w).2 ≠ some "Failed to create build directory" ∧
    Event.createDirAll (cBuildDir w) ∈ (lexerMain w).1 := by
  have hd' : ¬(w.buildDirExists = false ∧ w.mkdirOk = false) := by simp [hb]
  constructor
  · unfold lexerMain
    rw [if_neg (by simp [hw]), if_neg (by simp [hm]), if_neg hd']
    split_ifs <;> simp
  · rw [lexerMain_trace w hw]
    refine List.mem_append_right _ ?_
    unfold tailEvents
    rw [if_neg (by simp [hm]), if_neg hd']
    exact List.mem_cons_self _ _

/-- C8: For all identity inputs free of embedded newlines, the metadata
fragment written by either build script contains exactly one constant
declaration per identity field (three lines in total), and the output
file is written by whole-file overwrite: the final content at the
destination path is the fragment itself, whatever the prior filesystem
content was. -/
theorem c8_metadata_fragment_wellformed (w : World)
    (fs : String → Option (List Char)) (hw : w.writeOk = true)
    (hts : '\n' ∉ w.timestamp.data) (hver : '\n' ∉ w.pkgVersion.data)
    (hname : '\n' ∉ w.pkgName.data) :
    runFs fs (lexerMain w).1 (w.outDir ++ "/lexer_info.rs") =
      some (buildInfoChars w.timestamp.data w.pkgVersion.data w.pkgName.data) ∧
    runFs fs (analysisMain w).1 (w.outDir ++ "/analysis_info.rs") =
      some (buildInfoChars w.timestamp.data w.pkgVersion.data w.pkgName.data) ∧
    (splitLines (buildInfoChars w.timestamp.data w.pkgVersion.data w.pkgName.data)).length = 3 ∧
    countDecl "BUILD_TIME"
      (splitLines (buildInfoChars w.timestamp.data w.pkgVersion.data w.pkgName.data)) = 1 ∧
    countDecl "PKG_VERSION"
      (splitLines (buildInfoChars w.timestamp.data w.pkgVersion.data w.pkgName.data)) = 1 ∧
    countDecl "PKG_NAME"
      (splitLines (buildInfoChars w.timestamp.data w.pkgVersion.data w.pkgName.data)) = 1 := by
  obtain ⟨h1, h2, h3⟩ := countDecl_buildInfo _ _ _ hts hver hname
  refine ⟨?_, ?_, ?_, h1, h2, h3⟩
  · rw [runFs_lexer w fs hw, if_pos rfl]
  · rw [runFs_analysis w fs hw, if_pos rfl]
  · rw [splitLines_buildInfo _ _ _ hts hver hname]
    rfl

/-- A concrete run in which every external interaction succeeds. -/
def wOk : World :=
  { outDir := "out", manifestDir := "proj",
    timestamp := "2024-01-01 00:00:00 UTC",
    pkgVersion := "0.1.0", pkgName := "lexer", writeOk := true,
    manifestExists := true, buildDirExists := false, mkdirOk := true,
    cmakeLaunches := true, cmakeSuccess := true,
    ninjaLaunches := true, ninjaSuccess := true }

/-- A concrete run in which the manifest is absent. -/
def wNoManifest : World := { wOk with manifestExists := false }

/-- A concrete run in which the configure subprocess exits nonzero. -/
def wCfgFail : World := { wOk with cmakeSuccess := false }

/-- A concrete rerun against a pre-existing workspace directory, in a
state where a fresh creation would fail. -/
def wPre : World := { wOk with buildDirExists := true, mkdirOk := false }

/-- C9 counterexample: on the concrete run whose manifest is absent, the
cfg flag is emitted although the native configure/build sequence is not
performed (the run spawns no subprocess at all), so the flag is not
present "exactly on those runs in which the native configure/build
sequence was actually performed". -/
theorem c9_counterexample_flag_without_native_build :
    Directive.rustcCfg "lexer_crate" ∈ emittedDirectives (lexerMain wNoManifest).1 ∧
    spawnEvents (lexerMain wNoManifest).1 = [] := by
  constructor <;> decide

/-- C9 (amended): the cfg flag is emitted on every run that completes the
metadata write, unconditionally — whether or not the native
configure/build sequence runs; the same holds for the analysis crate,
which never performs a native build. -/
theorem c9_cfg_flag_unconditional (w : World) (hw : w.writeOk = true) :
    Directive.rustcCfg "lexer_crate" ∈ emittedDirectives (lexerMain w).1 ∧
    Directive.rustcCfg "analysis_crate" ∈ emittedDirectives (analysisMain w).1 := by
  constructor
  · rw [emittedDirectives_lexer w hw]
    simp [lexerRerunPaths]
  · simp [analysisMain, hw, emittedDirectives]

/-- C10: Whenever the configuration step is reached, cmake is invoked
with the fixed argument list `-G Ninja -DCMAKE_BUILD_TYPE=Release ..` and
with the workspace directory `<project_root>/build` as working directory;
every cmake invocation in any such run carries exactly these arguments,
so the configuration request is identical run-to-run for a given project
layout and the build type is always Release. -/
theorem c10_cmake_invocation_deterministic (w : World)
    (hw : w.writeOk = true) (hm : w.manifestExists = true)
    (hd : w.buildDirExists = true ∨ w.mkdirOk = true) :
    Event.spawn "cmake" cmakeArgs (cBuildDir w) ∈ (lexerMain w).1 ∧
    (∀ args cwd, Event.spawn "cmake" args cwd ∈ (lexerMain w).1 →
      args = ["-G", "Ninja", "-DCMAKE_BUILD_TYPE=Release", ".."] ∧
        cwd = w.manifestDir ++ "/build") := by
  have hd' : ¬(w.buildDirExists = false ∧ w.mkdirOk = false) := by
    rcases hd with h | h <;> simp [h]
  constructor
  · rw [lexerMain_trace w hw]
    refine List.mem_append_right _ ?_
    unfold tailEvents
    rw [if_neg (by simp [hm]), if_neg hd']
    exact List.mem_cons_of_mem _ (List.mem_cons_self _ _)
  · intro args cwd hmem
    rw [lexerMain_trace w hw] at hmem
    rcases List.mem_append.mp hmem with h | h
    · exfalso
      revert h
      simp [lexerPrefixEvents, lexerRerunPaths]
    · revert h
      unfold tailEvents
      rw [if_neg (by simp [hm]), if_neg hd']
      intro h
      simp only [List.mem_cons] at h
      rcases h with h | h | h
      · exact Event.noConfusion h
      · injection h with h0 h1 h2
        exact ⟨h1, h2⟩
      · exfalso
        revert h
        split_ifs <;> simp

/-- Witness for `c2_configure_failure_short_circuits` at the concrete run
`wCfgFail`. -/
theorem c2_witness :
    wCfgFail.writeOk = true ∧ wCfgFail.manifestExists = true ∧
    (wCfgFail.buildDirExists = true ∨ wCfgFail.mkdirOk = true) ∧
    wCfgFail.cmakeLaunches = true ∧ wCfgFail.cmakeSuccess = false ∧
    ((∀ args cwd, Event.spawn "ninja" args cwd ∉ (lexerMain wCfgFail).1) ∧
      (∀ d ∈ emittedDirectives (lexerMain wCfgFail).1, isLinkDirective d = false) ∧
      (lexerMain wCfgFail).2 = some "CMake configuration failed") :=
  ⟨rfl, rfl, Or.inr rfl, rfl, rfl,
    c2_configure_failure_short_circuits wCfgFail rfl rfl (Or.inr rfl) rfl rfl⟩

/-- Witness for `c3_no_manifest_is_noop` at the concrete run
`wNoManifest`. -/
theorem c3_witness :
    wNoManifest.manifestExists = false ∧ wNoManifest.writeOk = true ∧
    (spawnEvents (lexerMain wNoManifest).1 = [] ∧
      (∀ d ∈ emittedDirectives (lexerMain wNoManifest).1, isLinkDirective d = false) ∧
      (lexerMain wNoManifest).2 = none) :=
  ⟨rfl, rfl, c3_no_manifest_is_noop wNoManifest rfl rfl⟩

/-- Witness for `c4_success_emits_one_of_each` at the concrete run
`wOk`. -/
theorem c4_witness :
    wOk.writeOk = true ∧ wOk.manifestExists = true ∧
    (wOk.buildDirExists = true ∨ wOk.mkdirOk = true) ∧
    wOk.cmakeLaunches = true ∧ wOk.cmakeSuccess = true ∧
    wOk.ninjaLaunches = true ∧ wOk.ninjaSuccess = true ∧
    ((emittedDirectives (lexerMain wOk).1).count
        (Directive.linkSearchNative (wOk.manifestDir ++ "/build")) = 1 ∧
      (emittedDirectives (lexerMain wOk).1).count
        (Directive.linkLibStatic "native") = 1 ∧
      (emittedDirectives (lexerMain wOk).1).filter isLinkDirective =
        [Directive.linkSearchNative (wOk.manifestDir ++ "/build"),
         Directive.linkLibStatic "native"]) :=
  ⟨rfl, rfl, Or.inr rfl, rfl, rfl, rfl, rfl,
    c4_success_emits_one_of_each wOk rfl rfl (Or.inr rfl) rfl rfl rfl rfl⟩

/-- Witness for `c5_rebuild_triggers_unconditional` at the concrete run
`wOk`. -/
theorem c5_witness :
    wOk.writeOk = true ∧
    ((emittedDirectives (lexerMain wOk).1).filter isRerunTrigger =
        lexerRerunPaths.map Directive.rerunIfChanged ∧
      (∃ post, (lexerMain wOk).1 = lexerPrefixEvents wOk ++ post ∧
        (emittedDirectives (lexerPrefixEvents wOk)).filter isRerunTrigger =
          lexerRerunPaths.map Directive.rerunIfChanged ∧
        (lexerPrefixEvents wOk).getLast? =
          some (Event.checkManifest (wOk.manifestDir ++ "/CMakeLists.txt"))) ∧
      lexerRerunPaths = ["CMakeLists.txt", "src/*.c", "inc/*.h", "Cargo.toml", "src/"]) :=
  ⟨rfl, c5_rebuild_triggers_unconditional wOk rfl⟩

/-- Witness for `c6_stages_strictly_sequential` at the concrete run
`wOk`. -/
theorem c6_witness :
    wOk.writeOk = true ∧ wOk.manifestExists = true ∧
    (wOk.buildDirExists = true ∨ wOk.mkdirOk = true) ∧
    wOk.cmakeLaunches = true ∧ wOk.cmakeSuccess = true ∧
    wOk.ninjaLaunches = true ∧ wOk.ninjaSuccess = true ∧
    ((lexerMain wOk).1 =
      [Event.writeFile (wOk.outDir ++ "/lexer_info.rs")
          (buildInfoChars wOk.timestamp.data wOk.pkgVersion.data wOk.pkgName.data),
       Event.emit (Directive.rerunIfChanged "CMakeLists.txt"),
       Event.emit (Directive.rerunIfChanged "src/*.c"),
       Event.emit (Directive.rerunIfChanged "inc/*.h"),
       Event.emit (Directive.rerunIfChanged "Cargo.toml"),
       Event.emit (Directive.rerunIfChanged "src/"),
       Event.emit (Directive.rustcCfg "lexer_crate"),
       Event.checkManifest (wOk.manifestDir ++ "/CMakeLists.txt"),
       Event.createDirAll (cBuildDir wOk),
       Event.spawn "cmake" cmakeArgs (cBuildDir wOk),
       Event.spawn "ninja" [] (cBuildDir wOk),
       Event.emit (Directive.linkSearchNative (cBuildDir wOk)),
       Event.emit (Directive.linkLibStatic "native")] ∧
    (∀ v : World, ∀ pr ar cw, Event.spawn pr ar cw ∈ (lexerMain v).1 →
      ∃ rest, (lexerMain v).1 =
        Event.writeFile (v.outDir ++ "/lexer_info.rs")
          (buildInfoChars v.timestamp.data v.pkgVersion.data v.pkgName.data) :: rest)) :=
  ⟨rfl, rfl, Or.inr rfl, rfl, rfl, rfl, rfl,
    c6_stages_strictly_sequential wOk rfl rfl (Or.inr rfl) rfl rfl rfl rfl⟩

/-- Witness for `c7_existing_workspace_tolerated` at the concrete rerun
`wPre`, whose workspace pre-exists while a fresh creation would fail. -/
theorem c7_witness :
    wPre.writeOk = true ∧ wPre.manifestExists = true ∧
    wPre.buildDirExists = true ∧
    ((lexerMain wPre).2 ≠ some "Failed to create build directory" ∧
      Event.createDirAll (cBuildDir wPre) ∈ (lexerMain wPre).1) :=
  ⟨rfl, rfl, rfl, c7_existing_workspace_tolerated wPre rfl rfl rfl⟩

/-- Witness for `c8_metadata_fragment_wellformed` at the concrete run
`wOk` over the empty filesystem. -/
theorem c8_witness :
    wOk.writeOk = true ∧ '\n' ∉ wOk.timestamp.data ∧
    '\n' ∉ wOk.pkgVersion.data ∧ '\n' ∉ wOk.pkgName.data ∧
    (runFs (fun _ => none) (lexerMain wOk).1 (wOk.outDir ++ "/lexer_info.rs") =
        some (buildInfoChars wOk.timestamp.data wOk.pkgVersion.data wOk.pkgName.data) ∧
      runFs (fun _ => none) (analysisMain wOk).1 (wOk.outDir ++ "/analysis_info.rs") =
        some (buildInfoChars wOk.timestamp.data wOk.pkgVersion.data wOk.pkgName.data) ∧
      (splitLines (buildInfoChars wOk.timestamp.data wOk.pkgVersion.data wOk.pkgName.data)).length = 3 ∧
      countDecl "BUILD_TIME"
        (splitLines (buildInfoChars wOk.timestamp.data wOk.pkgVersion.data wOk.pkgName.data)) = 1 ∧
      countDecl "PKG_VERSION"
        (splitLines (buildInfoChars wOk.timestamp.data wOk.pkgVersion.data wOk.pkgName.data)) = 1 ∧
      countDecl "PKG_NAME"
        (splitLines (buildInfoChars wOk.timestamp.data wOk.pkgVersion.data wOk.pkgName.data)) = 1) :=
  ⟨rfl, by decide, by decide, by decide,
    c8_metadata_fragment_wellformed wOk (fun _ => none) rfl (by decide) (by decide) (by decide)⟩

/-- Witness for `c9_cfg_flag_unconditional` at the concrete run `wOk`. -/
theorem c9_witness :
    wOk.writeOk = true ∧
    (Directive.rustcCfg "lexer_crate" ∈ emittedDirectives (lexerMain wOk).1 ∧
      Directive.rustcCfg "analysis_crate" ∈ emittedDirectives (analysisMain wOk).1) :=
  ⟨rfl, c9_cfg_flag_unconditional wOk rfl⟩

/-- Witness for `c10_cmake_invocation_deterministic` at the concrete run
`wOk`. -/
theorem c10_witness :
    wOk.writeOk = true ∧ wOk.manifestExists = true ∧
    (wOk.buildDirExists = true ∨ wOk.mkdirOk = true) ∧
    (Event.spawn "cmake" cmakeArgs (cBuildDir wOk) ∈ (lexerMain wOk).1 ∧
      (∀ args cwd, Event.spawn "cmake" args cwd ∈ (lexerMain wOk).1 →
        args = ["-G", "Ninja", "-DCMAKE_BUILD_TYPE=Release", ".."] ∧
          cwd = wOk.manifestDir ++ "/build")) :=
  ⟨rfl, rfl, Or.inr rfl,
    c10_cmake_invocation_deterministic wOk rfl rfl (Or.inr rfl)⟩
